import Mathlib

/-!
Verification of the cbauth wrapper package (src/cbauth.go) and of the core
authentication engine it delegates to (package cbauthimpl, whose source is
not part of this repository snapshot; those parts are modelled from the
specification, as marked on each definition).

Naming follows the Go source where Lean allows it.
-/

namespace Cbauth

/-- Data shape consumed from the update feed (spec §6 / cbauthimpl.User,
constructed by `mkUser` in src/cbauth_test.go): name, type, salt, and the
keyed hash (`Mac`) of the password under the salt. -/
structure User where
  user : String
  type : String
  salt : List Nat
  mac : List Nat
deriving DecidableEq, Repr

/-- cbauthimpl.Bucket (src/cbauth_test.go `mkBucket`): name and plaintext
password; empty password means no authentication required. -/
structure Bucket where
  name : String
  password : String
deriving DecidableEq, Repr

/-- cbauthimpl.Node (src/cbauth_test.go `mkNode`): host, port list, the
node's service account user and password, and the local-node flag
(named `localNode` here because `local` is a Lean keyword). -/
structure Node where
  host : String
  ports : List Int
  user : String
  password : String
  localNode : Bool
deriving DecidableEq, Repr

/-- cbauthimpl.Cache: the immutable Snapshot pushed wholesale by the update
feed (spec §3): users, buckets, nodes, the global SpecialUser and the two
verification endpoints. -/
structure Cache where
  users : List User := []
  buckets : List Bucket := []
  nodes : List Node := []
  specialUser : String := ""
  authCheckURL : String := ""
  permissionCheckURL : String := ""
deriving DecidableEq, Repr

/-- Authorization scope of a verified identity (spec §3): one of
full-admin, readonly-admin, bucket-scoped(name), none. -/
inductive Scope where
  | fullAdmin
  | readonlyAdmin
  | bucketScoped (name : String)
  | noAccess
deriving DecidableEq, Repr

/-- cbauthimpl.CredsImpl: verified identity plus authorization scope,
produced per verification call (spec §3). `source` is what the `Source()`
audit method reports. -/
structure Credential where
  name : String
  source : String
  scope : Scope
deriving DecidableEq, Repr

/-- Errors surfaced by the engine (spec §6/§7): `noSuchIdentity` is the
single sentinel `ErrNoAuth` (src/cbauth.go line 82), `staleErr` is
`DBStaleError` optionally wrapping the last recorded failure reason,
`transportFailure` is a token-path network failure, `extractFailure` a
failure of the out-of-scope credential extraction from an http request. -/
inductive AuthError where
  | noSuchIdentity
  | staleErr (reason : Option String)
  | transportFailure (e : String)
  | extractFailure (e : String)
deriving DecidableEq, Repr

/-- Modelled from the spec: the Permission Evaluator (spec §4.4), living in
the missing cbauthimpl package behind `CredsImpl.IsAllowed`. First matching
rule wins: full-admin allows everything; readonly-admin allows exactly
`cluster.admin.security!read`; bucket-scoped(B) allows exactly permissions
of shape `cluster.bucket[B].<action>`; none allows nothing. -/
def isAllowed (c : Credential) (permission : String) : Bool :=
  match c.scope with
  | .fullAdmin => true
  | .readonlyAdmin => permission = "cluster.admin.security!read"
  | .bucketScoped b => permission.startsWith ("cluster.bucket[" ++ b ++ "].")
  | .noAccess => false

/-- Modelled from the spec: the scope a builtin user of the given type
obtains on successful password verification (spec §4.2 step 3): full-admin
for type `admin`, readonly-admin for type `readonly-admin`, else none. -/
def scopeOfType (t : String) : Scope :=
  if t = "admin" then .fullAdmin
  else if t = "readonly-admin" then .readonlyAdmin
  else .noAccess

/-- Modelled from the spec: cbauthimpl.VerifyPassword's per-snapshot core
(spec §4.2, missing from src/). `hash` is the keyed hash (HMAC-SHA1 in the
tests, outside src/) of a password under a salt, passed as a parameter.
Steps in order: anonymous attempt matches a bucket named `default` with
empty password; otherwise a User of that name is checked by keyed-hash
comparison; otherwise a Bucket of that name is checked by plaintext
equality; every rejection is `noSuchIdentity` (= ErrNoAuth). -/
def verifyPassword (hash : List Nat → String → List Nat) (s : Cache)
    (user pwd : String) : Except AuthError Credential :=
  if user = "" ∧ pwd = "" then
    match s.buckets.find? (fun b => b.name = "default" && b.password = "") with
    | some _ => .ok ⟨user, "anonymous", .bucketScoped "default"⟩
    | none => .error .noSuchIdentity
  else
    match s.users.find? (fun u => u.user = user) with
    | some u =>
      if hash u.salt pwd = u.mac then .ok ⟨user, "builtin", scopeOfType u.type⟩
      else .error .noSuchIdentity
    | none =>
      match s.buckets.find? (fun b => b.name = user) with
      | some b =>
        if b.password = pwd then .ok ⟨user, "bucket", .bucketScoped user⟩
        else .error .noSuchIdentity
      | none => .error .noSuchIdentity

/-! ## Freshness Coordinator (cbauthimpl.Svc, modelled from the spec §4.1) -/

/-- Modelled from the spec: the Coordinator's freshness state (spec §4.1):
`neverFresh` (initial), `fresh` (after a successful push), `staleTimeout`
(deadline fired while still never-fresh). -/
inductive FState where
  | neverFresh
  | fresh
  | staleTimeout
deriving DecidableEq, Repr

/-- Modelled from the spec: the Coordinator's mutable record (spec §3/§4.1,
cbauthimpl.Svc missing from src/): current snapshot (absent until the first
push), freshness state, and the last recorded failure reason. -/
structure Coord where
  snapshot : Option Cache
  fstate : FState
  lastFailure : Option String
deriving DecidableEq, Repr

/-- Modelled from the spec: the Coordinator constructed fresh at process
start: no snapshot, never-fresh, no recorded failure. -/
def coordInit : Coord := ⟨none, .neverFresh, none⟩

/-- Events the Coordinator reacts to (spec §4.1): a successful push of a
snapshot (`svc.UpdateDB` in the tests), a failure notice, and the one-shot
deadline timer firing. -/
inductive CoordEvent where
  | push (s : Cache)
  | pushFailure (e : String)
  | deadlineFire
deriving DecidableEq, Repr

/-- Modelled from the spec: the Coordinator's transition function
(spec §4.1). `push` installs the snapshot and sets the state to fresh;
`pushFailure` only records the reason; the deadline firing moves
never-fresh to stale-timeout and is a no-op in any other state. -/
def coordStep (c : Coord) (e : CoordEvent) : Coord :=
  match e with
  | .push s => { c with snapshot := some s, fstate := .fresh }
  | .pushFailure e => { c with lastFailure := some e }
  | .deadlineFire =>
    match c.fstate with
    | .neverFresh => { c with fstate := .staleTimeout }
    | _ => c

/-- Folding a list of events through `coordStep`. -/
def coordRun (c : Coord) (evs : List CoordEvent) : Coord :=
  evs.foldl coordStep c

/-- Outcome of a `read()` call (spec §4.1): an installed snapshot, an
immediate Stale rejection carrying the last failure reason, or blocking
(never-fresh, deadline not yet fired — no result is produced yet). -/
inductive ReadResult where
  | gotSnapshot (s : Cache)
  | staleNow (reason : Option String)
  | blocked
deriving DecidableEq, Repr

/-- Modelled from the spec: `read()` (spec §4.1): fresh state answers with
the current snapshot immediately; stale-timeout fails immediately with
Stale(last-failure-reason); never-fresh blocks the caller. -/
def coordRead (c : Coord) : ReadResult :=
  match c.fstate with
  | .fresh =>
    match c.snapshot with
    | some s => .gotSnapshot s
    | none => .blocked
  | .staleTimeout => .staleNow c.lastFailure
  | .neverFresh => .blocked

/-- Modelled from the spec: the password-path entry point `Auth`
(src/cbauth.go line 103 delegating to cbauthimpl.VerifyPassword): obtain a
snapshot via `read()`, surfacing Stale unchanged, then run the per-snapshot
verification. `none` stands for a call still blocked. -/
def coordAuth (hash : List Nat → String → List Nat) (c : Coord)
    (user pwd : String) : Option (Except AuthError Credential) :=
  match coordRead c with
  | .gotSnapshot s => some (verifyPassword hash s user pwd)
  | .staleNow r => some (.error (.staleErr r))
  | .blocked => none

/-! ## Token path (cbauthimpl.VerifyOnServer, spec §4.3) -/

/-- Outcome of the one outbound token-verification call (spec §4.3/§6):
status 200 with a body carrying a user name and a source label, any other
status, or a transport-level failure. -/
inductive TokenResponse where
  | success (user source : String)
  | rejected
  | transportFail (e : String)
deriving DecidableEq, Repr

/-- Modelled from the spec: cbauthimpl.VerifyOnServer's handling of the
outbound call's outcome (spec §4.3, missing from src/). A success produces
a full-admin credential named after the returned user; its reported
`Source()` is the fixed audit label `ns_server`, as pinned by
`TestTokenAdmin` (src/cbauth_test.go line 450), which requires
`Source() == "ns_server"` although the response body carried the source
label `admin`. A non-success response is `noSuchIdentity`; a transport
failure is surfaced as such, never reclassified. -/
def verifyOnServer (r : TokenResponse) : Except AuthError Credential :=
  match r with
  | .success user _source => .ok ⟨user, "ns_server", .fullAdmin⟩
  | .rejected => .error .noSuchIdentity
  | .transportFail e => .error (.transportFailure e)

/-! ## AuthWebCreds dispatch (src/cbauth.go lines 92-101) -/

/-- An inbound http request, at the granularity the dispatch needs:
header and cookie lists (name, value). -/
structure Request where
  headers : List (String × String)
  cookies : List (String × String)
deriving DecidableEq, Repr

/-- First value bound to the given header name, if any. -/
def Request.header (r : Request) (name : String) : Option String :=
  (r.headers.find? (fun h => h.1 = name)).map (·.2)

/-- Whether the request carries a cookie of the given name. -/
def Request.hasCookie (r : Request) (name : String) : Bool :=
  r.cookies.any (fun c => c.1 = name)

/-- Modelled from the spec: cbauthimpl.IsAuthTokenPresent (missing from
src/): the session marker is the indicator header `ns-server-ui` set to the
affirmative value `yes` plus the named session cookie `ui-auth-q`
(spec §4.3; names as set up by `TestTokenAdmin`). -/
def isAuthTokenPresent (r : Request) : Bool :=
  r.header "ns-server-ui" = some "yes" && r.hasCookie "ui-auth-q"

/-- The password branch of `AuthWebCreds` (src/cbauth.go lines 96-100):
an extraction failure is returned as-is, otherwise the extracted user and
password go through password-path verification. `extracted` is the result
of the out-of-scope `ExtractCreds`. -/
def authPasswordBranch (hash : List Nat → String → List Nat) (s : Cache)
    (extracted : Except String (String × String)) : Except AuthError Credential :=
  match extracted with
  | .error e => .error (.extractFailure e)
  | .ok (user, pwd) => verifyPassword hash s user pwd

/-- `authImpl.AuthWebCreds` (src/cbauth.go lines 92-101): if the auth
token is present the request is verified on the server (token path), and
only then; otherwise credentials are extracted from the request and
verified by password. `tokenResp` is the outcome the outbound call would
produce, `extracted` the outcome credential extraction would produce. -/
def authWebCreds (hash : List Nat → String → List Nat) (s : Cache)
    (req : Request) (tokenResp : TokenResponse)
    (extracted : Except String (String × String)) : Except AuthError Credential :=
  if isAuthTokenPresent req then verifyOnServer tokenResp
  else authPasswordBranch hash s extracted

/-! ## Service-credential lookup (spec §4.5; wrappers src/cbauth.go 107-129) -/

/-- Modelled from the spec: the node-table scan (spec §4.5): the first
entry whose host equals the given host and whose port list contains the
given port. -/
def findNode (s : Cache) (host : String) (port : Int) : Option Node :=
  s.nodes.find? (fun n => n.host = host && n.ports.contains port)

/-- Modelled from the spec: cbauthimpl.GetCreds (missing from src/),
returning `(memcachedUser, httpUser, password)`: on a match, the node's own
configured user, the Snapshot's global SpecialUser and the node's password
(spec §4.5); on no match, empty strings — the wrappers in src/cbauth.go
convert an all-empty answer into `UnknownHostPortError` (the spec's
LookupFailure). -/
def getCreds (s : Cache) (host : String) (port : Int) : String × String × String :=
  match findNode s host port with
  | some n => (n.user, s.specialUser, n.password)
  | none => ("", "", "")

/-- Errors of the two service-auth wrappers (src/cbauth.go): the host:port
split error propagated as-is, or `UnknownHostPortError` carrying the
offending hostport string. -/
inductive SvcError where
  | splitErr (e : String)
  | unknownHostPort (hostport : String)
deriving DecidableEq, Repr

/-- `authImpl.GetMemcachedServiceAuth` (src/cbauth.go lines 107-117).
`split` is the result of the out-of-scope `SplitHostPort hostport`: its
error is returned unchanged with empty credentials; otherwise the node
lookup runs and an empty user-and-password answer becomes
`UnknownHostPortError(hostport)`. Returns `(user, password, error)`. -/
def getMemcachedServiceAuth (s : Cache) (hostport : String)
    (split : Except String (String × Int)) : String × String × Option SvcError :=
  match split with
  | .error e => ("", "", some (.splitErr e))
  | .ok (host, port) =>
    let r := getCreds s host port
    if r.1 = "" ∧ r.2.2 = "" then ("", "", some (.unknownHostPort hostport))
    else (r.1, r.2.2, none)

/-- `authImpl.GetHTTPServiceAuth` (src/cbauth.go lines 119-129): same as
the memcached wrapper but the user returned (and checked against empty) is
GetCreds' second result, the Snapshot's SpecialUser. -/
def getHTTPServiceAuth (s : Cache) (hostport : String)
    (split : Except String (String × Int)) : String × String × Option SvcError :=
  match split with
  | .error e => ("", "", some (.splitErr e))
  | .ok (host, port) =>
    let r := getCreds s host port
    if r.2.1 = "" ∧ r.2.2 = "" then ("", "", some (.unknownHostPort hostport))
    else (r.2.1, r.2.2, none)

/-! ## Stale error formatting (src/cbauth.go lines 73-78) -/

/-- `(*DBStaleError).Error` (src/cbauth.go lines 73-78): with a wrapped
error its message interpolates that error's text after
`last reason:`; with no wrapped error it is the never-updated text.
The wrapped error is modelled by its text, `none` standing for Go's nil. -/
def dbStaleErrorMessage (err : Option String) : String :=
  match err with
  | some reason => "CBAuth database is stale: last reason: " ++ reason
  | none => "CBAuth database is stale. Was never updated yet."

/-! ## Concrete instances (from the spec's worked examples and the tests) -/

/-- A trivial keyed hash used to instantiate the hash parameter on
concrete runs that never reach the user-digest comparison. -/
def hashZero : List Nat → String → List Nat := fun _ _ => []

/-- Snapshot of `TestBucketsAuth`: a passwordless `default` bucket and a
bucket `foo` with password `bar`. -/
def sampleWithDefault : Cache := ⟨[], [⟨"default", ""⟩, ⟨"foo", "bar"⟩], [], "", "", ""⟩

/-- The same snapshot after the push that removes the `default` bucket. -/
def sampleNoDefault : Cache := ⟨[], [⟨"foo", "bar"⟩], [], "", "", ""⟩

/-- Node table of `TestServicePwd` / spec §8's worked example. -/
def nodesSample : Cache :=
  ⟨[], [],
   [⟨"beta.local", [9000, 12000], "_admin", "foobar", false⟩,
    ⟨"chi.local", [9001, 12001], "_admin", "barfoo", false⟩],
   "@component", "", ""⟩

/-- A node entry whose configured user and password are both empty. -/
def emptyNode : Node := ⟨"beta.local", [9000], "", "", false⟩

/-- A snapshot holding only `emptyNode`, with a nonempty SpecialUser. -/
def emptyCredsSnap : Cache := ⟨[], [], [emptyNode], "@component", "", ""⟩

/-- The same snapshot with the node table emptied. -/
def emptySnapWithout : Cache := ⟨[], [], [], "@component", "", ""⟩

/-- A request carrying the session marker of `TestTokenAdmin`: indicator
header `ns-server-ui: yes` and session cookie `ui-auth-q`. -/
def reqWithToken : Request := ⟨[("ns-server-ui", "yes")], [("ui-auth-q", "1234567890")]⟩

/-- A request with no headers and no cookies. -/
def reqPlain : Request := ⟨[], []⟩

/-! ## Coordinator trace lemmas -/

/-- The snapshot installed after folding `evs` over a state whose current
snapshot is `s`: the last pushed snapshot, or `s` if no push occurs. -/
def lastSnap (s : Cache) (evs : List CoordEvent) : Cache :=
  evs.foldl (fun acc e => match e with | .push s2 => s2 | _ => acc) s

theorem coordRun_fresh (evs : List CoordEvent) (c : Coord) (s : Cache)
    (hf : c.fstate = .fresh) (hs : c.snapshot = some s) :
    (coordRun c evs).fstate = .fresh ∧
    (coordRun c evs).snapshot = some (lastSnap s evs) := by
  induction evs generalizing c s with
  | nil => exact ⟨hf, by simpa [coordRun, lastSnap] using hs⟩
  | cons e rest ih =>
    cases e with
    | push s2 =>
      simpa [coordRun, coordStep, lastSnap] using
        ih ({ c with snapshot := some s2, fstate := .fresh }) s2 rfl rfl
    | pushFailure msg =>
      simpa [coordRun, coordStep, lastSnap] using
        ih ({ c with lastFailure := some msg }) s hf hs
    | deadlineFire =>
      have hstep : coordStep c .deadlineFire = c := by
        simp [coordStep, hf]
      have := ih c s hf hs
      simpa [coordRun, hstep, lastSnap] using this

/-! ## Claim theorems -/

/-- C1: once the Coordinator has entered the fresh state via a successful
push, no later sequence of events (deadline firings or push failures
included) returns it to stale-timeout: its state stays `fresh`, every
`read()` issued after that point obtains a snapshot rather than Stale, and
the snapshot obtained is the one installed by the latest push — each later
push replaces the snapshot visible to calls issued after the replacement. -/
theorem C1_fresh_persists_and_push_replaces (c0 : Coord) (s : Cache)
    (evs : List CoordEvent) :
    (coordRun (coordStep c0 (.push s)) evs).fstate = .fresh ∧
    coordRead (coordRun (coordStep c0 (.push s)) evs) =
      .gotSnapshot (lastSnap s evs) := by
  obtain ⟨h1, h2⟩ := coordRun_fresh evs (coordStep c0 (.push s)) s rfl rfl
  refine ⟨h1, ?_⟩
  simp [coordRead, h1, h2]

/-- C2: the Permission Evaluator is a pure, total function of the
credential and the permission string alone (it takes no Coordinator state
and performs no effect), and its allow/deny answer is determined by what is
baked into the credential: any two credentials carrying the same scope
receive the same answer on every permission. -/
theorem C2_isAllowed_pure_deterministic (c c2 : Credential) (p : String)
    (h : c.scope = c2.scope) : isAllowed c p = isAllowed c2 p := by
  simp [isAllowed, h]

theorem C2_isAllowed_pure_deterministic_witness :
    (⟨"a", "builtin", Scope.bucketScoped "x"⟩ : Credential).scope =
      (⟨"b", "bucket", Scope.bucketScoped "x"⟩ : Credential).scope ∧
    isAllowed ⟨"a", "builtin", Scope.bucketScoped "x"⟩ "cluster.bucket[x].data!write" =
      isAllowed ⟨"b", "bucket", Scope.bucketScoped "x"⟩ "cluster.bucket[x].data!write" :=
  ⟨rfl, C2_isAllowed_pure_deterministic
    ⟨"a", "builtin", Scope.bucketScoped "x"⟩
    ⟨"b", "bucket", Scope.bucketScoped "x"⟩
    "cluster.bucket[x].data!write" rfl⟩

/-- C3: on the password path with empty user and empty password, if the
current snapshot contains a bucket named `default` with empty password the
verification returns the anonymous bucket-scoped(`default`) credential;
otherwise it is rejected with `noSuchIdentity` (NoSuchIdentity/ErrNoAuth).
In particular, after a push installing a snapshot without such a bucket,
an `Auth("","")` call observing the new snapshot fails the same way. -/
theorem C3_anonymous_default_bucket (hash : List Nat → String → List Nat)
    (s : Cache) :
    ((∃ b ∈ s.buckets, b.name = "default" ∧ b.password = "") →
      verifyPassword hash s "" "" = .ok ⟨"", "anonymous", .bucketScoped "default"⟩) ∧
    ((¬ ∃ b ∈ s.buckets, b.name = "default" ∧ b.password = "") →
      verifyPassword hash s "" "" = .error .noSuchIdentity) ∧
    (∀ c0 : Coord, (¬ ∃ b ∈ s.buckets, b.name = "default" ∧ b.password = "") →
      coordAuth hash (coordStep c0 (.push s)) "" "" =
        some (.error .noSuchIdentity)) := by
  have key2 : (¬ ∃ b ∈ s.buckets, b.name = "default" ∧ b.password = "") →
      verifyPassword hash s "" "" = .error .noSuchIdentity := by
    intro h
    have hn : s.buckets.find? (fun b => b.name = "default" && b.password = "") = none := by
      rw [List.find?_eq_none]
      intro x hx
      simp only [Bool.and_eq_true, decide_eq_true_eq, not_and]
      intro h1 h2
      exact h ⟨x, hx, h1, h2⟩
    simp [verifyPassword, hn]
  refine ⟨?_, key2, ?_⟩
  · intro h
    obtain ⟨b, hb, h1, h2⟩ := h
    have hsome : (s.buckets.find? (fun b => b.name = "default" && b.password = "")).isSome := by
      rw [List.find?_isSome]
      exact ⟨b, hb, by simp [h1, h2]⟩
    obtain ⟨b2, hfind⟩ := Option.isSome_iff_exists.mp hsome
    simp [verifyPassword, hfind]
  · intro c0 h
    simp [coordAuth, coordRead, coordStep, key2 h]

theorem C3_anonymous_default_bucket_witness :
    verifyPassword hashZero sampleWithDefault "" "" =
      .ok ⟨"", "anonymous", .bucketScoped "default"⟩ ∧
    verifyPassword hashZero sampleNoDefault "" "" = .error .noSuchIdentity ∧
    coordAuth hashZero (coordStep coordInit (.push sampleNoDefault)) "" "" =
      some (.error .noSuchIdentity) :=
  ⟨(C3_anonymous_default_bucket hashZero sampleWithDefault).1 (by decide),
   (C3_anonymous_default_bucket hashZero sampleNoDefault).2.1 (by decide),
   (C3_anonymous_default_bucket hashZero sampleNoDefault).2.2 coordInit (by decide)⟩

/-- C4 counterexample: a node entry matching host `beta.local` and port
9000 exists, yet `GetMemcachedServiceAuth` does not return that node's
credentials without error — because the node's configured user and
password are both empty, the wrapper (src/cbauth.go lines 113-114) reports
`UnknownHostPortError`, refuting the claim that a lookup failure occurs
only when no node matches. -/
theorem C4_counterexample :
    findNode emptyCredsSnap "beta.local" 9000 = some emptyNode ∧
    getMemcachedServiceAuth emptyCredsSnap "beta.local:9000"
      (.ok ("beta.local", 9000)) =
      ("", "", some (.unknownHostPort "beta.local:9000")) := by
  constructor
  · decide
  · decide

/-- C4 (amended): if a node entry matches the given host and port and the
username/password pair the call would return is not both-empty, then
`GetMemcachedServiceAuth` returns the node's configured user with the
node's password and `GetHTTPServiceAuth` returns the snapshot's
SpecialUser with the same node's password, both without error; if no node
matches, both calls fail with `UnknownHostPortError` (LookupFailure). -/
theorem C4_service_auth_lookup (s : Cache) (hostport host : String) (port : Int) :
    (∀ n : Node, findNode s host port = some n →
      (¬ (n.user = "" ∧ n.password = "") →
        getMemcachedServiceAuth s hostport (.ok (host, port)) =
          (n.user, n.password, none)) ∧
      (¬ (s.specialUser = "" ∧ n.password = "") →
        getHTTPServiceAuth s hostport (.ok (host, port)) =
          (s.specialUser, n.password, none))) ∧
    (findNode s host port = none →
      getMemcachedServiceAuth s hostport (.ok (host, port)) =
        ("", "", some (.unknownHostPort hostport)) ∧
      getHTTPServiceAuth s hostport (.ok (host, port)) =
        ("", "", some (.unknownHostPort hostport))) := by
  constructor
  · intro n hfind
    constructor
    · intro hne
      simp [getMemcachedServiceAuth, getCreds, hfind, hne]
    · intro hne
      simp [getHTTPServiceAuth, getCreds, hfind, hne]
  · intro hnone
    constructor
    · simp [getMemcachedServiceAuth, getCreds, hnone]
    · simp [getHTTPServiceAuth, getCreds, hnone]

theorem C4_service_auth_lookup_witness :
    getMemcachedServiceAuth nodesSample "beta.local:9000"
      (.ok ("beta.local", 9000)) = ("_admin", "foobar", none) ∧
    getHTTPServiceAuth nodesSample "chi.local:9001"
      (.ok ("chi.local", 9001)) = ("@component", "barfoo", none) ∧
    getMemcachedServiceAuth nodesSample "unknown:9000"
      (.ok ("unknown", 9000)) =
      ("", "", some (.unknownHostPort "unknown:9000")) :=
  ⟨((C4_service_auth_lookup nodesSample "beta.local:9000" "beta.local" 9000).1
      ⟨"beta.local", [9000, 12000], "_admin", "foobar", false⟩ (by decide)).1 (by decide),
   ((C4_service_auth_lookup nodesSample "chi.local:9001" "chi.local" 9001).1
      ⟨"chi.local", [9001, 12001], "_admin", "barfoo", false⟩ (by decide)).2 (by decide),
   ((C4_service_auth_lookup nodesSample "unknown:9000" "unknown" 9000).2 (by decide)).1⟩

/-- C5 counterexample: the token-path success response of `TestTokenAdmin`
carries user `Administrator` and source label `admin`, yet the resulting
credential's `Source()` is `ns_server` (src/cbauth_test.go line 450), not
the returned source label — refuting the claim that `Source()` equals the
returned source label. -/
theorem C5_counterexample :
    verifyOnServer (.success "Administrator" "admin") =
      .ok ⟨"Administrator", "ns_server", .fullAdmin⟩ ∧
    ("ns_server" : String) ≠ "admin" := by
  constructor
  · rfl
  · decide

/-- C5 (amended): for every token-path verification whose outbound check
succeeds with a user name and a source label, the returned credential has
`Name()` equal to the returned user name, `Source()` equal to the fixed
audit label `ns_server` (not the returned source label), and full-admin
scope: `isAllowed` is true for every permission string. -/
theorem C5_token_success_full_admin (user source : String) (c : Credential)
    (h : verifyOnServer (.success user source) = .ok c) :
    c.name = user ∧ c.source = "ns_server" ∧ ∀ p : String, isAllowed c p = true := by
  injection h with h2
  subst h2
  exact ⟨rfl, rfl, fun p => rfl⟩

theorem C5_token_success_full_admin_witness :
    (⟨"Administrator", "ns_server", Scope.fullAdmin⟩ : Credential).name =
      "Administrator" ∧
    (⟨"Administrator", "ns_server", Scope.fullAdmin⟩ : Credential).source =
      "ns_server" ∧
    isAllowed ⟨"Administrator", "ns_server", Scope.fullAdmin⟩
      "cluster.admin.settings!write" = true :=
  ⟨(C5_token_success_full_admin "Administrator" "admin"
      ⟨"Administrator", "ns_server", Scope.fullAdmin⟩ rfl).1,
   (C5_token_success_full_admin "Administrator" "admin"
      ⟨"Administrator", "ns_server", Scope.fullAdmin⟩ rfl).2.1,
   (C5_token_success_full_admin "Administrator" "admin"
      ⟨"Administrator", "ns_server", Scope.fullAdmin⟩ rfl).2.2
     "cluster.admin.settings!write"⟩

/-- C6: `AuthWebCreds` dispatches exclusively on the presence of the
session marker: a request carrying the auth token (indicator header plus
session cookie) is verified on the server (token path) and never reaches
password verification; any other request goes through credential
extraction and password-path verification. -/
theorem C6_authWebCreds_dispatch (hash : List Nat → String → List Nat)
    (s : Cache) (req : Request) (tr : TokenResponse)
    (ex : Except String (String × String)) :
    (isAuthTokenPresent req = true →
      authWebCreds hash s req tr ex = verifyOnServer tr) ∧
    (isAuthTokenPresent req = false →
      authWebCreds hash s req tr ex = authPasswordBranch hash s ex) := by
  constructor <;> intro h <;> simp [authWebCreds, h]

theorem C6_authWebCreds_dispatch_witness :
    authWebCreds hashZero sampleNoDefault reqWithToken
      (.success "Administrator" "admin") (.ok ("foo", "bar")) =
      verifyOnServer (.success "Administrator" "admin") ∧
    authWebCreds hashZero sampleNoDefault reqPlain
      (.success "Administrator" "admin") (.ok ("foo", "bar")) =
      authPasswordBranch hashZero sampleNoDefault (.ok ("foo", "bar")) :=
  ⟨(C6_authWebCreds_dispatch hashZero sampleNoDefault reqWithToken
      (.success "Administrator" "admin") (.ok ("foo", "bar"))).1 (by decide),
   (C6_authWebCreds_dispatch hashZero sampleNoDefault reqPlain
      (.success "Administrator" "admin") (.ok ("foo", "bar"))).2 (by decide)⟩

/-- C7: the Stale error's diagnostic message depends on whether a
last-failure reason was recorded: with a recorded reason it is
`CBAuth database is stale: last reason: <reason>`; with no recorded
reason (wrapped error nil) it is the never-updated text. -/
theorem C7_stale_error_message (reason : String) :
    dbStaleErrorMessage (some reason) =
      "CBAuth database is stale: last reason: " ++ reason ∧
    dbStaleErrorMessage none =
      "CBAuth database is stale. Was never updated yet." :=
  ⟨rfl, rfl⟩

/-- C8 counterexample: a matching node entry whose configured user and
password are both empty is distinguishable from an absent host:port at the
`GetHTTPServiceAuth` interface: with the node present (and a nonempty
SpecialUser) the call returns `("@component", "", nil)`, while with the
node absent it returns `UnknownHostPortError` — refuting the claimed
indistinguishability. -/
theorem C8_counterexample :
    getHTTPServiceAuth emptyCredsSnap "beta.local:9000"
      (.ok ("beta.local", 9000)) = ("@component", "", none) ∧
    getHTTPServiceAuth emptySnapWithout "beta.local:9000"
      (.ok ("beta.local", 9000)) =
      ("", "", some (.unknownHostPort "beta.local:9000")) ∧
    ("@component", "", (none : Option SvcError)) ≠
      ("", "", some (SvcError.unknownHostPort "beta.local:9000")) := by
  refine ⟨?_, ?_, ?_⟩ <;> decide

/-- C8 (amended): each wrapper reports `UnknownHostPortError(hostport)`
exactly when the username it would return and the password are both empty:
for `GetMemcachedServiceAuth` the node-table lookup's configured node user,
for `GetHTTPServiceAuth` the snapshot's SpecialUser. Consequently a
matching node entry whose configured user and password are both empty is
indistinguishable from an absent host:port at the `GetMemcachedServiceAuth`
interface; at the `GetHTTPServiceAuth` interface, however, such an entry
still yields the snapshot's nonempty SpecialUser with an empty password and
no error, and is therefore distinguishable from an absent host:port. -/
theorem C8_empty_creds_unknown_hostport (s : Cache) (hostport host : String)
    (port : Int) (n : Node) :
    ((getCreds s host port).1 = "" ∧ (getCreds s host port).2.2 = "" →
      getMemcachedServiceAuth s hostport (.ok (host, port)) =
        ("", "", some (.unknownHostPort hostport))) ∧
    ((getCreds s host port).2.1 = "" ∧ (getCreds s host port).2.2 = "" →
      getHTTPServiceAuth s hostport (.ok (host, port)) =
        ("", "", some (.unknownHostPort hostport))) ∧
    (findNode s host port = some n → n.user = "" → n.password = "" →
      getMemcachedServiceAuth s hostport (.ok (host, port)) =
        ("", "", some (.unknownHostPort hostport))) ∧
    (findNode s host port = some n → n.user = "" → n.password = "" →
      s.specialUser ≠ "" →
      getHTTPServiceAuth s hostport (.ok (host, port)) =
        (s.specialUser, "", none)) := by
  refine ⟨?_, ?_, ?_, ?_⟩
  · intro h
    simp [getMemcachedServiceAuth, h]
  · intro h
    simp [getHTTPServiceAuth, h]
  · intro hfind hu hp
    simp [getMemcachedServiceAuth, getCreds, hfind, hu, hp]
  · intro hfind hu hp hsu
    simp [getHTTPServiceAuth, getCreds, hfind, hu, hp, hsu]

theorem C8_empty_creds_unknown_hostport_witness :
    getMemcachedServiceAuth emptyCredsSnap "beta.local:9000"
      (.ok ("beta.local", 9000)) =
      ("", "", some (.unknownHostPort "beta.local:9000")) ∧
    getHTTPServiceAuth emptyCredsSnap "beta.local:9000"
      (.ok ("beta.local", 9000)) = ("@component", "", none) :=
  ⟨(C8_empty_creds_unknown_hostport emptyCredsSnap "beta.local:9000"
      "beta.local" 9000 emptyNode).2.2.1 (by decide) (by decide) (by decide),
   (C8_empty_creds_unknown_hostport emptyCredsSnap "beta.local:9000"
      "beta.local" 9000 emptyNode).2.2.2 (by decide) (by decide) (by decide)
     (by decide)⟩

/-- C9: when the host:port split fails, both wrappers return empty user and
empty password together with the split error itself — not
`UnknownHostPortError` — and the node table is never consulted: the result
is the same for every snapshot. -/
theorem C9_split_error_propagated (s : Cache) (hostport e : String) :
    getMemcachedServiceAuth s hostport (.error e) =
      ("", "", some (.splitErr e)) ∧
    getHTTPServiceAuth s hostport (.error e) =
      ("", "", some (.splitErr e)) ∧
    (∀ s2 : Cache, getMemcachedServiceAuth s hostport (.error e) =
      getMemcachedServiceAuth s2 hostport (.error e)) ∧
    (∀ s2 : Cache, getHTTPServiceAuth s hostport (.error e) =
      getHTTPServiceAuth s2 hostport (.error e)) :=
  ⟨rfl, rfl, fun _ => rfl, fun _ => rfl⟩

/-- C10: every credential rejection produced by the password path —
unknown user, wrong user password, unmatched bucket password, failed
anonymous match — is the single sentinel `noSuchIdentity` (the exported
`ErrNoAuth`): whenever `verifyPassword` returns an error, that error is
`noSuchIdentity`. -/
theorem C10_rejections_are_errNoAuth (hash : List Nat → String → List Nat)
    (s : Cache) (user pwd : String) (e : AuthError)
    (h : verifyPassword hash s user pwd = .error e) : e = .noSuchIdentity := by
  unfold verifyPassword at h
  repeat' split at h
  all_goals first
    | (injection h with h2; exact h2.symm)
    | simp at h

theorem C10_rejections_are_errNoAuth_witness :
    verifyPassword hashZero sampleNoDefault "foo" "notbar" =
      .error .noSuchIdentity ∧
    AuthError.noSuchIdentity = AuthError.noSuchIdentity :=
  ⟨rfl, C10_rejections_are_errNoAuth hashZero sampleNoDefault "foo" "notbar"
    .noSuchIdentity rfl⟩

end Cbauth
